import Mathlib

/-!
Verification development for the multiagent-delfos workflow orchestrator.

Shallow embedding of the Python sources:
  * `src/src/utils/json_parser.py` (`JSONParser.extract_json`)
  * `src/src/utils/retry.py`       (`run_with_retry`)
  * `src/src/models.py`            (pydantic result schemas)
  * `src/src/workflow.py`          (`run_workflow`)

Modelling conventions:
  * Python exceptions are modelled with `Except String`; code that catches an
    exception inspects the `.error` branch, code that lets it escape propagates
    it to the top-level handler of `run_workflow`.
  * `json.loads` is modelled by an executable fuel-based parser `loads` over a
    JSON value type `JValue`.  JSON numbers are modelled as integers; literals
    with a fraction or exponent are rejected by the model parser (no claim
    input involves them).  Python dict semantics (insertion order, duplicate
    keys keep the first position with the last value) are reproduced.
  * Timing, logging side effects (the `AgentLogger` audit trail and
    `logger.info`/`logger.warning` calls) and the serialized `input_text`
    strings built with `json.dumps` are not modelled: no claim in scope
    depends on them.  Stage invocation is recorded in an explicit `invoked`
    list instead.
-/

/-- JSON values as produced by `json.loads`.  Objects keep Python dict
insertion order; duplicate keys are collapsed at parse time exactly like a
Python dict literal (first position, last value). -/
inductive JValue where
  | jnull : JValue
  | jbool (b : Bool) : JValue
  | jnum (n : Int) : JValue
  | jstr (s : String) : JValue
  | jarr (xs : List JValue) : JValue
  | jobj (fields : List (String × JValue)) : JValue

/-- JSON whitespace accepted by `json.loads` between tokens. -/
def isWsJson (c : Char) : Bool :=
  c == ' ' || c == '\t' || c == '\n' || c == '\r'

/-- Whitespace class of Python's regex `\s` and `str.strip()` (ASCII part;
no claim input contains non-ASCII whitespace). -/
def isSpaceP (c : Char) : Bool :=
  c == ' ' || c == '\t' || c == '\n' || c == '\r' ||
  c == Char.ofNat 11 || c == Char.ofNat 12

/-- Drop leading JSON whitespace. -/
def skipWs (cs : List Char) : List Char := cs.dropWhile isWsJson

/-- Hex digit value, for `\uXXXX` string escapes. -/
def parseHexDigit (c : Char) : Option Nat :=
  if '0' ≤ c ∧ c ≤ '9' then some (c.toNat - 48)
  else if 'a' ≤ c ∧ c ≤ 'f' then some (c.toNat - 87)
  else if 'A' ≤ c ∧ c ≤ 'F' then some (c.toNat - 55)
  else none

/-- Body of a JSON string literal (the opening quote already consumed),
with the escape sequences `json.loads` accepts; unescaped control
characters are rejected (strict mode). -/
def parseStringBody (fuel : Nat) (cs : List Char) (acc : List Char) :
    Option (String × List Char) :=
  match fuel with
  | 0 => none
  | Nat.succ f =>
    match cs with
    | [] => none
    | c :: rest =>
      if c == '"' then some (String.mk acc.reverse, rest)
      else if c == '\\' then
        match rest with
        | [] => none
        | e :: rest2 =>
          if e == '"' then parseStringBody f rest2 ('"' :: acc)
          else if e == '\\' then parseStringBody f rest2 ('\\' :: acc)
          else if e == '/' then parseStringBody f rest2 ('/' :: acc)
          else if e == 'b' then parseStringBody f rest2 (Char.ofNat 8 :: acc)
          else if e == 'f' then parseStringBody f rest2 (Char.ofNat 12 :: acc)
          else if e == 'n' then parseStringBody f rest2 ('\n' :: acc)
          else if e == 'r' then parseStringBody f rest2 ('\r' :: acc)
          else if e == 't' then parseStringBody f rest2 ('\t' :: acc)
          else if e == 'u' then
            match rest2 with
            | h1 :: h2 :: h3 :: h4 :: rest3 =>
              match parseHexDigit h1, parseHexDigit h2,
                    parseHexDigit h3, parseHexDigit h4 with
              | some a, some b, some c2, some d =>
                parseStringBody f rest3
                  (Char.ofNat (((a * 16 + b) * 16 + c2) * 16 + d) :: acc)
              | _, _, _, _ => none
            | _ => none
          else none
      else if c.toNat < 32 then none
      else parseStringBody f rest (c :: acc)

/-- Numeric value of a digit run. -/
def natFromDigits (ds : List Char) : Nat :=
  ds.foldl (fun n c => n * 10 + (c.toNat - 48)) 0

/-- Integer literal: maximal digit run, rejecting leading zeros and any
following fraction/exponent marker (such literals are floats, which the
model does not represent). -/
def parseNat (cs : List Char) : Option (Nat × List Char) :=
  let digits := cs.takeWhile Char.isDigit
  let rest := cs.dropWhile Char.isDigit
  if digits.isEmpty then none
  else if digits.length > 1 && digits.head? == some '0' then none
  else
    match rest with
    | [] => some (natFromDigits digits, [])
    | c :: _ =>
      if c == '.' || c == 'e' || c == 'E' then none
      else some (natFromDigits digits, rest)

/-- Consume a literal keyword tail (the `rue` of `true`, ...). -/
def dropLit (lit : String) (cs : List Char) : Option (List Char) :=
  if lit.data.isPrefixOf cs then some (cs.drop lit.length) else none

/-- Insert a key into an object under Python dict semantics: an existing
key keeps its position and takes the new value, a new key is appended. -/
def insertField : List (String × JValue) → String → JValue →
    List (String × JValue)
  | [], k, v => [(k, v)]
  | (k0, v0) :: rest, k, v =>
    if k0 == k then (k0, v) :: rest else (k0, v0) :: insertField rest k v

mutual

/-- One JSON value, returning the unread remainder (recursive descent,
fuelled). -/
def parseVal (fuel : Nat) (cs0 : List Char) : Option (JValue × List Char) :=
  match fuel with
  | 0 => none
  | Nat.succ f =>
    match skipWs cs0 with
    | [] => none
    | '"' :: rest =>
      (parseStringBody (Nat.succ f) rest []).map
        (fun p => (JValue.jstr p.1, p.2))
    | '{' :: rest =>
      (match skipWs rest with
       | '}' :: r2 => some (JValue.jobj [], r2)
       | _ => parseMembers f rest [])
    | '[' :: rest =>
      (match skipWs rest with
       | ']' :: r2 => some (JValue.jarr [], r2)
       | _ => parseItems f rest [])
    | 't' :: rest => (dropLit "rue" rest).map (fun r => (JValue.jbool true, r))
    | 'f' :: rest => (dropLit "alse" rest).map (fun r => (JValue.jbool false, r))
    | 'n' :: rest => (dropLit "ull" rest).map (fun r => (JValue.jnull, r))
    | '-' :: rest =>
      (parseNat rest).map (fun p => (JValue.jnum (-(p.1 : Int)), p.2))
    | c :: rest =>
      if c.isDigit then
        (parseNat (c :: rest)).map (fun p => (JValue.jnum (p.1 : Int), p.2))
      else none

/-- Members of a JSON object after the opening `{` (at least one member). -/
def parseMembers (fuel : Nat) (cs : List Char)
    (acc : List (String × JValue)) : Option (JValue × List Char) :=
  match fuel with
  | 0 => none
  | Nat.succ f =>
    match skipWs cs with
    | '"' :: rest =>
      match parseStringBody (Nat.succ f) rest [] with
      | none => none
      | some (k, r1) =>
        match skipWs r1 with
        | ':' :: r2 =>
          match parseVal f r2 with
          | none => none
          | some (v, r3) =>
            match skipWs r3 with
            | ',' :: r4 => parseMembers f r4 (insertField acc k v)
            | '}' :: r4 => some (JValue.jobj (insertField acc k v), r4)
            | _ => none
        | _ => none
    | _ => none

/-- Items of a JSON array after the opening `[` (at least one item). -/
def parseItems (fuel : Nat) (cs : List Char) (acc : List JValue) :
    Option (JValue × List Char) :=
  match fuel with
  | 0 => none
  | Nat.succ f =>
    match parseVal f cs with
    | none => none
    | some (v, r1) =>
      match skipWs r1 with
      | ',' :: r2 => parseItems f r2 (v :: acc)
      | ']' :: r2 => some (JValue.jarr (v :: acc).reverse, r2)
      | _ => none

end

/-- Model of `json.loads` on a character list: parse one value and require
only whitespace to remain, else fail (`JSONDecodeError` becomes `none`). -/
def loadsChars (cs : List Char) : Option JValue :=
  match parseVal (cs.length + 1) cs with
  | some (v, rest) => if (skipWs rest).isEmpty then some v else none
  | none => none

/-- Model of `json.loads` on a string. -/
def loads (s : String) : Option JValue := loadsChars s.data

/-- Index of the first occurrence of `needle` in `hay` (None when absent);
the search model behind the leftmost-match rule of `re.search`. -/
def findSub (needle : List Char) : List Char → Option Nat
  | [] => if needle.isEmpty then some 0 else none
  | c :: rest =>
    if needle.isPrefixOf (c :: rest) then some 0
    else (findSub needle rest).map (· + 1)

/-- True when `needle` occurs inside `hay` (Python `needle in hay` on str). -/
def isSubstr (needle hay : List Char) : Bool := (findSub needle hay).isSome

/-- Lowercase a character list (ASCII case folding of `re.IGNORECASE` and
`str.lower()`; claim inputs are ASCII). -/
def lowerChars (cs : List Char) : List Char := cs.map Char.toLower

/-- Strip the whitespace class of `\s` from both ends. -/
def trimWs (cs : List Char) : List Char :=
  ((cs.dropWhile isSpaceP).reverse.dropWhile isSpaceP).reverse

/-- Model of `re.search(r"<answer>\s*(.*?)\s*</answer>", text,
re.DOTALL | re.IGNORECASE)`: the region between the first (case-insensitive)
`<answer>` and the first `</answer>` after it, whitespace-stripped — the
leading greedy `\s*` and the lazy group make the match equivalent to
stripping the enclosed region. -/
def answerSearch (cs : List Char) : Option (List Char) :=
  match findSub ("<answer>".data) (lowerChars cs) with
  | none => none
  | some i =>
    let after := cs.drop (i + 8)
    match findSub ("</answer>".data) (lowerChars after) with
    | none => none
    | some j => some (trimWs (after.take j))

/-- Three backticks, the fence delimiter of the code-block regex. -/
def ticks : List Char := ['`', '`', '`']

/-- Scan for the lazy end of the fenced group `\{.*?\}` followed by
`\s*` and a closing fence: the first `\x7d` whose following maximal
whitespace run is followed by three backticks ends the group. -/
def fenceScan (acc : List Char) : List Char → Option (List Char)
  | [] => none
  | c :: rest =>
    if c == '}' then
      (if ticks.isPrefixOf (rest.dropWhile isSpaceP) then
        some (('}' :: acc).reverse)
       else none).orElse
      (fun _ => fenceScan (c :: acc) rest)
    else fenceScan (c :: acc) rest

/-- Attempt the fence body at a fixed position, just after the opening
fence (and optional `json` tag): skip whitespace, require `\x7b`, then find
the lazy closing brace. -/
def tryFenceAt (cs : List Char) : Option (List Char) :=
  match cs.dropWhile isSpaceP with
  | '{' :: tail => fenceScan ['{'] tail
  | _ => none

/-- Model of `re.search(r"(:?json)-tagged fenced block", text, re.DOTALL)`
for the pattern  three backticks, optional `json`, `\s*(\{.*?\})\s*`, three
backticks: leftmost opening fence whose body admits a match, preferring the
`json`-tagged reading (the regex optional group is greedy). -/
def fenceSearch : List Char → Option (List Char)
  | [] => none
  | c :: rest =>
    (if c == '`' && (['`', '`'] : List Char).isPrefixOf rest then
      let after := rest.drop 2
      ((if ("json".data).isPrefixOf after then tryFenceAt (after.drop 4)
        else none).orElse
       (fun _ => tryFenceAt after))
     else none).orElse
    (fun _ => fenceSearch rest)

/-- Model of `re.search(r"(\{.*\})", text, re.DOTALL)`: the greedy span
from the first opening brace to the last closing brace after it. -/
def braceSpan (cs : List Char) : Option (List Char) :=
  match cs.findIdx? (fun c => c == '{') with
  | none => none
  | some f =>
    match cs.reverse.findIdx? (fun c => c == '}') with
    | none => none
    | some rj =>
      let l := cs.length - 1 - rj
      if f < l then some ((cs.drop f).take (l - f + 1)) else none

/-- The fenced-code-block attempt of `extract_json` on the full text. -/
def outerFenceAttempt (cs : List Char) : Option JValue :=
  (fenceSearch cs).bind loadsChars

/-- The greedy brace-span attempt of `extract_json` on the full text. -/
def outerBraceAttempt (cs : List Char) : Option JValue :=
  (braceSpan cs).bind loadsChars

/-- The common tail of `JSONParser.extract_json` (json_parser.py lines
37-51): fenced code block, then greedy brace span, then the empty record. -/
def extractFallback (text : String) : JValue :=
  match outerFenceAttempt text.data with
  | some j => j
  | none =>
    match outerBraceAttempt text.data with
    | some j => j
    | none => JValue.jobj []

/-- Embedding of `JSONParser.extract_json` (json_parser.py lines 12-51):
whole-text parse; on failure, if an `<answer>` region exists, a fenced
block inside it and then a brace span inside it; then the fenced block and
brace span of the whole text; else the empty record.  Every
`json.JSONDecodeError` is caught, which the `Option`-valued attempts model. -/
def extract_json (text : String) : JValue :=
  match loads text with
  | some j => j
  | none =>
    match answerSearch text.data with
    | some content =>
      match (fenceSearch content).bind loadsChars with
      | some j => j
      | none =>
        match (braceSpan content).bind loadsChars with
        | some j => j
        | none => extractFallback text
    | none => extractFallback text

/-- Modelled from the spec: the extraction order stated in section 4.1 and
claimed by C7 — (a) whole text as JSON, (b) first fenced code block,
(c) greedy brace-delimited span, (d) empty record — with no other step.
Defined only to compare with the source-derived `extract_json`. -/
def specOrderedExtract (text : String) : JValue :=
  match loads text with
  | some j => j
  | none =>
    match outerFenceAttempt text.data with
    | some j => j
    | none =>
      match outerBraceAttempt text.data with
      | some j => j
      | none => JValue.jobj []

/-- First defined value of a list of attempts. -/
def firstSome : List (Option α) → Option α
  | [] => none
  | a :: rest => a.orElse (fun _ => firstSome rest)

/-! Retry policy: embedding of `run_with_retry` (retry.py lines 14-76).
The operation under retry is modelled by an oracle `outcomes : Nat → Except
String A` giving the result of each attempt; `str(e)` is the error payload.
Sleeping is recorded in a `sleeps` list (delays as rationals, standing in
for Python floats; no claim compares float round-off). -/

/-- Rate-limit classification of retry.py lines 47-51: case-insensitive
substring match on the raw error text. -/
def isRateLimitMsg (msg : String) : Bool :=
  let l := lowerChars msg.data
  isSubstr ("rate limit".data) l || isSubstr ("rate_limit".data) l ||
  isSubstr ("rate limit is exceeded".data) l

/-- Model of `re.search(r'(\d+)\s*seconds?', str(e), re.IGNORECASE)`:
leftmost maximal digit run followed (after whitespace) by `second`,
case-insensitively. -/
def secondsScan : List Char → Option Nat
  | [] => none
  | c :: rest =>
    (if c.isDigit then
      let digits := c :: rest.takeWhile Char.isDigit
      let after := (rest.dropWhile Char.isDigit).dropWhile isSpaceP
      if ("second".data).isPrefixOf (lowerChars after) then
        some (natFromDigits digits)
      else none
     else none).orElse
    (fun _ => secondsScan rest)

/-- Observable outcome of `run_with_retry`: the returned or raised value,
how many times the operation was invoked, and the sleeps performed. -/
structure RetryResult (A : Type) where
  result : Except String A
  attemptCount : Nat
  sleeps : List ℚ

/-- The `for attempt in range(max_retries)` loop of retry.py lines 39-71;
`fuel` is the number of loop iterations left. -/
def retryLoop (outcomes : Nat → Except String A) (maxRetries : Nat)
    (initialDelay backoffFactor : ℚ) (retryOn : Bool)
    (attempt : Nat) (fuel : Nat) (sleeps : List ℚ) : RetryResult A :=
  match fuel with
  | 0 => { result := Except.error "Max retries exceeded",
           attemptCount := attempt, sleeps := sleeps }
  | Nat.succ f =>
    match outcomes attempt with
    | Except.ok a =>
      { result := Except.ok a, attemptCount := attempt + 1, sleeps := sleeps }
    | Except.error e =>
      if isRateLimitMsg e && retryOn && decide (attempt + 1 < maxRetries) then
        let w : ℚ :=
          match secondsScan e.data with
          | some n => (n : ℚ)
          | none => initialDelay * backoffFactor ^ attempt
        retryLoop outcomes maxRetries initialDelay backoffFactor retryOn
          (attempt + 1) f (sleeps ++ [w])
      else
        { result := Except.error e, attemptCount := attempt + 1,
          sleeps := sleeps }

/-- Embedding of `run_with_retry`: runs the loop; with `max_retries = 0`
the loop body never executes and the final `raise Exception("Max retries
exceeded")` of lines 73-76 fires (`last_exception` is still `None`). -/
def runWithRetry (outcomes : Nat → Except String A) (maxRetries : Nat)
    (initialDelay backoffFactor : ℚ) (retryOn : Bool) : RetryResult A :=
  retryLoop outcomes maxRetries initialDelay backoffFactor retryOn
    0 maxRetries []

/-! Python value semantics used by workflow.py: truthiness, `in`, `.get`,
`[...]` indexing, and `==` against a string literal.  Operations that raise
`TypeError`/`AttributeError`/`KeyError` in Python are `Except.error` here;
the error propagates to the top-level handler of `run_workflow`. -/

/-- Python truthiness of a decoded JSON value. -/
def truthy : JValue → Bool
  | JValue.jnull => false
  | JValue.jbool b => b
  | JValue.jnum n => !(n == 0)
  | JValue.jstr s => !(s == "")
  | JValue.jarr xs => !xs.isEmpty
  | JValue.jobj fs => !fs.isEmpty

/-- Python `v == "s"` for a decoded JSON value: only an equal string
compares true (cross-type `==` is `False`). -/
def isStrVal (v : JValue) (s : String) : Bool :=
  match v with
  | JValue.jstr t => t == s
  | _ => false

/-- Python `k in v`: key membership for dicts, substring for strings,
element `==` for lists; `TypeError` otherwise. -/
def pyContains (v : JValue) (k : String) : Except String Bool :=
  match v with
  | JValue.jobj fs => Except.ok (List.lookup k fs).isSome
  | JValue.jstr s => Except.ok (isSubstr k.data s.data)
  | JValue.jarr xs => Except.ok (xs.any (fun x => isStrVal x k))
  | _ => Except.error "TypeError: argument is not iterable"

/-- The guard `v and (k in v)` used at workflow.py lines 160, 227 and 296:
short-circuits on falsy values, so the `TypeError` of `in` fires only for
truthy non-iterables. -/
def pyTruthyContains (v : JValue) (k : String) : Except String Bool :=
  if truthy v then pyContains v k else Except.ok false

/-- Python `v.get(k, dflt)`: dict lookup with default; `AttributeError`
on any non-dict. -/
def pyGet (v : JValue) (k : String) (dflt : JValue) : Except String JValue :=
  match v with
  | JValue.jobj fs => Except.ok ((List.lookup k fs).getD dflt)
  | _ => Except.error "AttributeError: object has no attribute get"

/-- Python `v[k]` with a string key: dict indexing (`KeyError` when
absent), `TypeError` on strings/lists/others. -/
def pyIndex (v : JValue) (k : String) : Except String JValue :=
  match v with
  | JValue.jobj fs =>
    match List.lookup k fs with
    | some x => Except.ok x
    | none => Except.error "KeyError"
  | _ => Except.error "TypeError: not subscriptable with a string key"

/-- Python `v[:100]` succeeds on strings and lists, `TypeError` otherwise
(used only in a log statement, workflow.py line 299, but a failure there
still aborts the run). -/
def sliceable : JValue → Bool
  | JValue.jstr _ => true
  | JValue.jarr _ => true
  | _ => false

/-- Truthiness of a `str` value. -/
def strTruthy (s : String) : Bool := !(s == "")

/-- Truthiness of an `Optional[str]` value (`None` and `""` are falsy). -/
def optStrTruthy : Option String → Bool
  | some s => strTruthy s
  | none => false

/-! Result schemas: embedding of models.py.  Validation of
`Model(**decoded_json)` is `Except`-valued: required fields must be present
with the declared type, optional fields accept `null`/absence, extra keys
are ignored (pydantic default).  Pydantic v2 lax coercions (digit strings
to int, ...) are not modelled; no claim input exercises them.  Timing
fields (`execution_time_ms`) and serialized `input_text` are omitted from
`AgentOutput`: no claim reads them. -/

/-- Required `str` field. -/
def reqStrField (fs : List (String × JValue)) (k : String) :
    Except String String :=
  match List.lookup k fs with
  | some (JValue.jstr s) => Except.ok s
  | some _ => Except.error (k ++ ": string required")
  | none => Except.error (k ++ ": field required")

/-- `Optional[str]` field defaulting to `None`. -/
def optStrField (fs : List (String × JValue)) (k : String) :
    Except String (Option String) :=
  match List.lookup k fs with
  | some (JValue.jstr s) => Except.ok (some s)
  | some JValue.jnull => Except.ok none
  | some _ => Except.error (k ++ ": string or null required")
  | none => Except.ok none

/-- The fields of a JSON object, when the value is one. -/
def asObjFields : JValue → Option (List (String × JValue))
  | JValue.jobj fs => some fs
  | _ => none

/-- A JSON array of objects, as `List[Dict[str, Any]]` demands. -/
def listOfObjs (v : JValue) : Option (List (List (String × JValue))) :=
  match v with
  | JValue.jarr xs => xs.mapM asObjFields
  | _ => none

/-- `List[str]` field with default `[]`. -/
def listStrField (fs : List (String × JValue)) (k : String) :
    Except String (List String) :=
  match List.lookup k fs with
  | none => Except.ok []
  | some (JValue.jarr xs) =>
    match xs.mapM (fun v => match v with
      | JValue.jstr s => some s
      | _ => none) with
    | some ss => Except.ok ss
    | none => Except.error (k ++ ": list of strings required")
  | some _ => Except.error (k ++ ": list required")

/-- `List[Dict[str, Any]]` field with default `[]`. -/
def optListObjField (fs : List (String × JValue)) (k : String) :
    Except String (List (List (String × JValue))) :=
  match List.lookup k fs with
  | none => Except.ok []
  | some v =>
    match listOfObjs v with
    | some xs => Except.ok xs
    | none => Except.error (k ++ ": list of objects required")

/-- Required `List[Dict[str, Any]]` field. -/
def reqListObjField (fs : List (String × JValue)) (k : String) :
    Except String (List (List (String × JValue))) :=
  match List.lookup k fs with
  | none => Except.error (k ++ ": field required")
  | some v =>
    match listOfObjs v with
    | some xs => Except.ok xs
    | none => Except.error (k ++ ": list of objects required")

/-- `int` field with default `0`. -/
def intField (fs : List (String × JValue)) (k : String) : Except String Int :=
  match List.lookup k fs with
  | none => Except.ok 0
  | some (JValue.jnum n) => Except.ok n
  | some _ => Except.error (k ++ ": int required")

/-- Embedding of `SQLResult` (models.py lines 18-24). -/
structure SQLResult where
  pregunta_original : String
  sql : String
  tablas : List String
  resultados : List (List (String × JValue))
  total_filas : Int
  resumen : String

/-- Validation of `SQLResult(**v)`: a non-mapping argument is the
`TypeError` of `**`, which line 165 of workflow.py also catches. -/
def sqlConstruct (v : JValue) : Except String SQLResult :=
  match v with
  | JValue.jobj fs => do
    let p ← reqStrField fs "pregunta_original"
    let s ← reqStrField fs "sql"
    let t ← listStrField fs "tablas"
    let r ← optListObjField fs "resultados"
    let n ← intField fs "total_filas"
    let m ← reqStrField fs "resumen"
    Except.ok { pregunta_original := p, sql := s, tablas := t,
                resultados := r, total_filas := n, resumen := m }
  | _ => Except.error "TypeError: argument after ** must be a mapping"

/-- Embedding of `VizResult` (models.py lines 26-33).  `image_url` holds a
raw decoded value because workflow.py line 298 assigns
`graph_json["image_url"]` without re-validation (pydantic does not validate
plain attribute assignment). -/
structure VizResult where
  tipo_grafico : String
  metric_name : String
  data_points : List (List (String × JValue))
  powerbi_url : String
  run_id : Option String
  image_base64 : Option String
  image_url : Option JValue

/-- Validation of `VizResult(**v)`. -/
def vizConstruct (v : JValue) : Except String VizResult :=
  match v with
  | JValue.jobj fs => do
    let tg ← reqStrField fs "tipo_grafico"
    let mn ← reqStrField fs "metric_name"
    let dp ← reqListObjField fs "data_points"
    let pu ← reqStrField fs "powerbi_url"
    let ri ← optStrField fs "run_id"
    let ib ← optStrField fs "image_base64"
    let iu ← optStrField fs "image_url"
    Except.ok { tipo_grafico := tg, metric_name := mn, data_points := dp,
                powerbi_url := pu, run_id := ri, image_base64 := ib,
                image_url := iu.map JValue.jstr }
  | _ => Except.error "TypeError: argument after ** must be a mapping"

/-- Embedding of `FormattedResponse` (models.py lines 43-52). -/
structure FormattedResponse where
  patron : String
  datos : List (List (String × JValue))
  arquetipo : String
  visualizacion : String
  tipo_grafica : Option String
  imagen : Option String
  link_power_bi : Option String
  insight : Option String

/-- Validation of `FormattedResponse(**v)`. -/
def formattedConstruct (v : JValue) : Except String FormattedResponse :=
  match v with
  | JValue.jobj fs => do
    let p ← reqStrField fs "patron"
    let d ← reqListObjField fs "datos"
    let a ← reqStrField fs "arquetipo"
    let vz ← reqStrField fs "visualizacion"
    let tg ← optStrField fs "tipo_grafica"
    let im ← optStrField fs "imagen"
    let lp ← optStrField fs "link_power_bi"
    let ins ← optStrField fs "insight"
    Except.ok { patron := p, datos := d, arquetipo := a, visualizacion := vz,
                tipo_grafica := tg, imagen := im, link_power_bi := lp,
                insight := ins }
  | _ => Except.error "TypeError: argument after ** must be a mapping"

/-- Embedding of `AgentOutput` (models.py lines 35-41), minus the timing
and input-text fields (see the schema note above). -/
structure AgentOutput where
  agent_name : String
  raw_response : String
  parsed_response : Option JValue

/-- Embedding of `ChatResponse` (models.py lines 54-62).  `intent` holds a
raw decoded value: workflow.py line 136 assigns `intent_data.get(...)`
without validation, so a non-string intent would be stored as-is. -/
structure ChatResponse where
  success : Bool
  message : String
  intent : Option JValue
  sql_data : Option SQLResult
  viz_data : Option VizResult
  formatted_response : Option FormattedResponse
  agent_outputs : List AgentOutput
  errors : List String

/-! Workflow orchestrator: embedding of `run_workflow` (workflow.py lines
24-408).  The external agent runtime is an oracle `Env`: the message list
produced by the Stage-1 concurrent run (or the exception it raised), and
the final text (or exception) of each `run_single_agent` call.  The
function returns the `ChatResponse` together with the list of agent stages
whose invocation began, in order. -/

/-- One message of the Stage-1 `WorkflowOutputEvent` stream.  A message
whose `text` attribute is missing or empty is modelled by `text = ""`
(lines 82-83 and 106 filter exactly on that). -/
structure Msg where
  author_name : Option String
  text : String

/-- Oracle for the external agent runtime. -/
structure Env where
  stage1 : Except String (List Msg)
  vizCall : Except String String
  graphCall : Except String String
  formatCall : Except String String

/-- Result of one run: the response plus the stages actually started. -/
structure RunState where
  resp : ChatResponse
  invoked : List String

/-- The fresh response of workflow.py line 29. -/
def initResponse : ChatResponse :=
  { success := false, message := "Iniciando...", intent := none,
    sql_data := none, viz_data := none, formatted_response := none,
    agent_outputs := [], errors := [] }

/-- The two Stage-1 agents run inside the concurrent workflow. -/
def stage1Invoked : List String := ["IntentAgent", "SQLAgent"]

/-- The top-level `except Exception` handler of workflow.py lines 394-398. -/
def fatal (r : ChatResponse) (e : String) : ChatResponse :=
  { r with success := false, message := "System error: " ++ e,
           errors := r.errors ++ [e] }

/-- `fatal` lifted to the run state. -/
def fatalSt (st : RunState) (e : String) : RunState :=
  { st with resp := fatal st.resp e }

/-- Append one `AgentOutput` record (the `response.agent_outputs.append`
calls). -/
def appendOut (r : ChatResponse) (name raw : String) (parsed : JValue) :
    ChatResponse :=
  { r with agent_outputs := r.agent_outputs ++
      [{ agent_name := name, raw_response := raw,
         parsed_response := some parsed }] }

/-- The message collection of workflow.py lines 77-83: keep messages with
a non-empty text. -/
def collectMsgs (events : List Msg) : List Msg :=
  events.filter (fun m => !(m.text == ""))

/-- Identity matching of workflow.py lines 94-102: last message per
author name wins. -/
def idMatch (msgs : List Msg) : String × String :=
  msgs.foldl (fun p m =>
    match m.author_name with
    | some a =>
      if a == "IntentAgent" then (m.text, p.2)
      else if a == "SQLAgent" then (p.1, m.text)
      else p
    | none => p) ("", "")

/-- Stage-1 reconciliation, workflow.py lines 94-113: identity matching,
then the ordinal fallback when either raw text is still empty — two or
more texts go to (intent, sql) positionally, a single text is used for
both, no text leaves the identity result unchanged. -/
def reconcile (msgs : List Msg) : String × String :=
  let p := idMatch msgs
  if p.1 == "" || p.2 == "" then
    match (msgs.filter (fun m => !(m.text == ""))).map Msg.text with
    | t1 :: t2 :: _ => (t1, t2)
    | [t] => (t, t)
    | [] => p
  else p

/-- Final `response.success = True` of workflow.py line 392, reached at
the end of the `try` body. -/
def finishRun (st : RunState) : RunState :=
  { st with resp := { st.resp with success := true } }

/-- Python `str.strip()` (whitespace). -/
def pyStrip (s : String) : String := String.mk (trimWs s.data)

/-- The fenced-wrapper strip of the formatting fallback (workflow.py lines
378-381 and 385-388): a message starting with a fence keeps the lines
between the first and last when more than two. -/
def stripFenceWrapper (s : String) : String :=
  if s.startsWith "```" then
    let lines := s.splitOn "\n"
    if lines.length > 2 then String.intercalate "\n" (lines.drop 1).dropLast
    else s
  else s

/-- The fallback user-facing message of the format stage: the stripped
raw agent text, or the SQL summary when that is empty. -/
def fallbackMessage (fm : String) (r : ChatResponse) : String :=
  let s := stripFenceWrapper (pyStrip fm)
  if strTruthy s then s
  else
    match r.sql_data with
    | some sq => sq.resumen
    | none => ""

/-- Stage 3, workflow.py lines 303-392: formatting runs when the run is
successful; its parsed output becomes the `FormattedResponse`, any
validation failure (caught at line 375) or unparsable output falls back to
the stripped raw text; the `intent_data.get` calls of the input
composition (lines 313-314) can only raise on a non-dict, which earlier
stages already exclude.  Input serialization is not modelled. -/
def formatPhase (env : Env) (st : RunState) (intent_data : JValue) :
    RunState :=
  if st.resp.success && st.resp.sql_data.isSome then
    let st1 := { st with invoked := st.invoked ++ ["FormatAgent"] }
    match pyGet intent_data "tipo_patron" JValue.jnull with
    | Except.error e => fatalSt st1 e
    | Except.ok _ =>
      match pyGet intent_data "arquetipo" JValue.jnull with
      | Except.error e => fatalSt st1 e
      | Except.ok _ =>
        match env.formatCall with
        | Except.error e => fatalSt st1 e
        | Except.ok fm =>
          let fj := extract_json fm
          let st2 := { st1 with resp := appendOut st1.resp "FormatAgent" fm fj }
          if truthy fj then
            match formattedConstruct fj with
            | Except.ok fr =>
              finishRun { st2 with resp :=
                { st2.resp with formatted_response := some fr } }
            | Except.error _ =>
              finishRun { st2 with resp :=
                { st2.resp with message := fallbackMessage fm st2.resp } }
          else
            finishRun { st2 with resp :=
              { st2.resp with message := fallbackMessage fm st2.resp } }
  else finishRun st

/-- Stage 2b, workflow.py lines 239-301: the chart stage runs only when a
`VizResult` exists with truthy `run_id` and `tipo_grafico`; an
`image_url` key in its parsed output is written into the existing
`VizResult`'s image field and nothing else; a missing key is only a logged
warning.  The log statement at line 299 slices the value, raising on
non-sliceable values after the mutation. -/
def chartPhase (env : Env) (st : RunState) (intent_data : JValue) :
    RunState :=
  match st.resp.viz_data with
  | some vd =>
    if optStrTruthy vd.run_id && strTruthy vd.tipo_grafico then
      let st1 := { st with invoked := st.invoked ++ ["GraphExecutor"] }
      match env.graphCall with
      | Except.error e => fatalSt st1 e
      | Except.ok raw_graph =>
        let graph_json := extract_json raw_graph
        let st2 :=
          { st1 with
            resp := appendOut st1.resp "GraphExecutor" raw_graph graph_json }
        match pyTruthyContains graph_json "image_url" with
        | Except.error e => fatalSt st2 e
        | Except.ok true =>
          match pyIndex graph_json "image_url" with
          | Except.error e => fatalSt st2 e
          | Except.ok iv =>
            let st3 := { st2 with resp := { st2.resp with
              viz_data := some { vd with image_url := some iv } } }
            if sliceable iv then formatPhase env st3 intent_data
            else fatalSt st3 "TypeError: value is not sliceable"
        | Except.ok false => formatPhase env st2 intent_data
    else formatPhase env st intent_data
  | none => formatPhase env st intent_data

/-- Stage 2, workflow.py lines 181-237: the visualization stage runs iff
the detected intent equals `requiere_visualizacion` and SQL data exists.
A parsed output with a `powerbi_url` key is promoted with
`VizResult(**viz_json)` — NOT wrapped in try/except, so a validation
failure there escapes to the top-level handler; an output without the key
is only a logged warning.  The placeholder-URL check of line 230 is
log-only, but calling `.startswith` on a non-string value raises. -/
def vizPhase (env : Env) (st : RunState) (intentVal intent_data : JValue) :
    RunState :=
  if isStrVal intentVal "requiere_visualizacion" && st.resp.sql_data.isSome then
    let st1 := { st with invoked := st.invoked ++ ["VizAgent"] }
    match env.vizCall with
    | Except.error e => fatalSt st1 e
    | Except.ok raw_viz =>
      let viz_json := extract_json raw_viz
      let st2 :=
        { st1 with
          resp := appendOut st1.resp "VizAgent" raw_viz viz_json }
      match pyTruthyContains viz_json "powerbi_url" with
      | Except.error e => fatalSt st2 e
      | Except.ok true =>
        match pyGet viz_json "powerbi_url" (JValue.jstr "") with
        | Except.error e => fatalSt st2 e
        | Except.ok urlv =>
          match urlv with
          | JValue.jstr _ =>
            match vizConstruct viz_json with
            | Except.ok vr =>
              chartPhase env { st2 with resp :=
                { st2.resp with viz_data := some vr } } intent_data
            | Except.error e => fatalSt st2 e
          | _ =>
            fatalSt st2 "AttributeError: object has no attribute startswith"
      | Except.ok false => chartPhase env st2 intent_data
  else chartPhase env st intent_data

/-- SQL-result validation, workflow.py lines 159-179: a parsed value that
is truthy and has a `resultados` key is promoted with `SQLResult(**)`
inside try/except — failure returns the raw text as message with
`success=false`; anything else returns the raw text (or a generic error)
with `success=false`.  Both failure paths return immediately. -/
def sqlCheck (env : Env) (st : RunState) (raw_sql : String)
    (intentVal intent_data : JValue) : RunState :=
  let sql_json := extract_json raw_sql
  let st2 := { st with resp := appendOut st.resp "SQLAgent" raw_sql sql_json }
  match pyTruthyContains sql_json "resultados" with
  | Except.error e => fatalSt st2 e
  | Except.ok true =>
    match sqlConstruct sql_json with
    | Except.ok sqlr =>
      vizPhase env { st2 with resp := { st2.resp with
        sql_data := some sqlr, message := sqlr.resumen, success := true } }
        intentVal intent_data
    | Except.error emsg =>
      { st2 with resp := { st2.resp with
          message := raw_sql, success := false,
          errors := st2.resp.errors ++
            ["Error parsing SQL results: " ++ emsg] } }
  | Except.ok false =>
    { st2 with resp := { st2.resp with
        success := false,
        message := if strTruthy raw_sql then raw_sql
                   else "Error executing SQL query",
        errors := st2.resp.errors ++
          ["SQLAgent could not complete the query successfully"] } }

/-- Processing after Stage-1 messages arrived, workflow.py lines 94-392:
reconcile raw outputs, extract and record the intent, read the `intent`
key (an `AttributeError` on a non-dict escapes to the handler), then
validate SQL and run the remaining stages. -/
def afterMessages (env : Env) (messages : List Msg) : RunState :=
  let raw_intent := (reconcile messages).1
  let raw_sql := (reconcile messages).2
  let intent_data := extract_json raw_intent
  let st1 : RunState :=
    { resp := appendOut initResponse "IntentAgent" raw_intent intent_data,
      invoked := stage1Invoked }
  match pyGet intent_data "intent" (JValue.jstr "nivel_puntual") with
  | Except.error e => fatalSt st1 e
  | Except.ok intentVal =>
    sqlCheck env
      { st1 with resp := { st1.resp with intent := some intentVal } }
      raw_sql intentVal intent_data

/-- Embedding of `run_workflow` (workflow.py lines 24-408).  A Stage-1
exception hits the top-level handler; an empty message list returns the
dedicated error response (lines 87-92); otherwise processing continues.
The `finally` block (audit session close, credential release) has no
modelled observable effect. -/
def runWorkflow (env : Env) : RunState :=
  match env.stage1 with
  | Except.error e =>
    { resp := fatal initResponse e, invoked := stage1Invoked }
  | Except.ok events =>
    match collectMsgs events with
    | [] =>
      { resp := { initResponse with
          success := false,
          message := "Error: Concurrent workflow did not return any messages",
          errors := ["Concurrent workflow did not return any messages"] },
        invoked := stage1Invoked }
    | m :: ms => afterMessages env (m :: ms)

/-! Concrete oracle environments used by the per-claim witnesses and
counterexamples. -/

/-- A Stage-1 intent message carrying the given intent value. -/
def intentMsg (intentVal : String) : Msg :=
  { author_name := some "IntentAgent",
    text := "\x7b\"intent\": \"" ++ intentVal ++ "\"\x7d" }

/-- A Stage-1 SQL message carrying a well-formed `SQLResult` payload. -/
def goodSqlMsg : Msg :=
  { author_name := some "SQLAgent",
    text := "\x7b\"pregunta_original\": \"q\", \"sql\": \"SELECT 1\", " ++
      "\"resultados\": [], \"resumen\": \"ok\"\x7d" }

/-- Environment for the C1 witness: the SQL agent answers with prose, so
its extracted JSON is the empty record. -/
def envC1 : Env :=
  { stage1 := Except.ok
      [intentMsg "nivel_puntual",
       { author_name := some "SQLAgent", text := "DB error" }],
    vizCall := Except.ok "", graphCall := Except.ok "",
    formatCall := Except.ok "" }

/-- Environment for the C2 witness: a fully successful run. -/
def envC2 : Env :=
  { stage1 := Except.ok [intentMsg "nivel_puntual", goodSqlMsg],
    vizCall := Except.ok "", graphCall := Except.ok "",
    formatCall := Except.ok "" }

/-- Environment for the C3 counterexample: visualization requested, SQL
succeeds, and the visualization output has a `powerbi_url` key but no
other `VizResult` field. -/
def envC3 : Env :=
  { stage1 := Except.ok [intentMsg "requiere_visualizacion", goodSqlMsg],
    vizCall := Except.ok "\x7b\"powerbi_url\": \"https://x\"\x7d",
    graphCall := Except.ok "", formatCall := Except.ok "" }

/-- Environment for the C3 witness: same run, but the visualization output
lacks the `powerbi_url` key entirely. -/
def envC3w : Env :=
  { stage1 := Except.ok [intentMsg "requiere_visualizacion", goodSqlMsg],
    vizCall := Except.ok "no chart available",
    graphCall := Except.ok "", formatCall := Except.ok "" }

/-- Environment for the C4 witness: visualization requested, viz output
unusable (stage still invoked). -/
def envC4 : Env :=
  { stage1 := Except.ok [intentMsg "requiere_visualizacion", goodSqlMsg],
    vizCall := Except.ok "no chart", graphCall := Except.ok "",
    formatCall := Except.ok "" }

/-- Environment for the C4 witness's other-intent branch: intent
`nivel_puntual`, successful SQL stage. -/
def envC4b : Env :=
  { stage1 := Except.ok [intentMsg "nivel_puntual", goodSqlMsg],
    vizCall := Except.ok "unused", graphCall := Except.ok "unused",
    formatCall := Except.ok "" }

/-- Environment for the C5 witness: a valid `VizResult` without `run_id`. -/
def envC5 : Env :=
  { stage1 := Except.ok [intentMsg "requiere_visualizacion", goodSqlMsg],
    vizCall := Except.ok ("\x7b\"tipo_grafico\": \"bar\", " ++
      "\"metric_name\": \"m\", \"data_points\": [], " ++
      "\"powerbi_url\": \"https://x\"\x7d"),
    graphCall := Except.ok "", formatCall := Except.ok "" }

/-- Environment for the C9 witness: full chart path with `run_id` and an
`image_url` in the chart output. -/
def envC9 : Env :=
  { stage1 := Except.ok [intentMsg "requiere_visualizacion", goodSqlMsg],
    vizCall := Except.ok ("\x7b\"tipo_grafico\": \"bar\", " ++
      "\"metric_name\": \"m\", \"data_points\": [], " ++
      "\"powerbi_url\": \"https://x\", \"run_id\": \"r1\"\x7d"),
    graphCall := Except.ok "\x7b\"image_url\": \"https://img\"\x7d",
    formatCall := Except.ok "" }

/-- The `VizResult` produced by `envC5`'s visualization output. -/
def vizC5 : VizResult :=
  { tipo_grafico := "bar", metric_name := "m", data_points := [],
    powerbi_url := "https://x", run_id := none, image_base64 := none,
    image_url := none }

/-- The `VizResult` produced by `envC9`'s visualization output. -/
def vizC9 : VizResult :=
  { tipo_grafico := "bar", metric_name := "m", data_points := [],
    powerbi_url := "https://x", run_id := some "r1", image_base64 := none,
    image_url := none }

/-- The input exhibiting C7's divergence: an `<answer>` region holding one
JSON object, followed by a second brace region that breaks the greedy
whole-text brace span. -/
def c7Input : String :=
  "<answer>\x7b\"a\": 1\x7d</answer> \x7b\"b\": 2\x7d"

/-! Helper lemmas shared by the claim theorems. -/

theorem isStrVal_true_iff (v : JValue) (s : String) :
    isStrVal v s = true ↔ v = JValue.jstr s := by
  cases v <;> simp [isStrVal]

theorem truthyContains_obj_none (fs : List (String × JValue)) (k : String)
    (h : List.lookup k fs = none) :
    pyTruthyContains (JValue.jobj fs) k = Except.ok false := by
  unfold pyTruthyContains pyContains
  split <;> simp [h]

theorem formatPhase_sql_data (env : Env) (st : RunState) (d : JValue) :
    (formatPhase env st d).resp.sql_data = st.resp.sql_data := by
  simp only [formatPhase]
  repeat' split
  all_goals simp [fatalSt, fatal, appendOut, finishRun]

theorem chartPhase_sql_data (env : Env) (st : RunState) (d : JValue) :
    (chartPhase env st d).resp.sql_data = st.resp.sql_data := by
  simp only [chartPhase]
  repeat' split
  all_goals simp [fatalSt, fatal, appendOut, formatPhase_sql_data]

theorem vizPhase_sql_data (env : Env) (st : RunState) (iv d : JValue) :
    (vizPhase env st iv d).resp.sql_data = st.resp.sql_data := by
  simp only [vizPhase]
  repeat' split
  all_goals simp [fatalSt, fatal, appendOut, chartPhase_sql_data]

theorem formatPhase_viz_data (env : Env) (st : RunState) (d : JValue) :
    (formatPhase env st d).resp.viz_data = st.resp.viz_data := by
  simp only [formatPhase]
  repeat' split
  all_goals simp [fatalSt, fatal, appendOut, finishRun]

theorem formatPhase_count_viz (env : Env) (st : RunState) (d : JValue) :
    ((formatPhase env st d).invoked).count "VizAgent" =
      st.invoked.count "VizAgent" := by
  simp only [formatPhase]
  repeat' split
  all_goals simp [fatalSt, fatal, appendOut, finishRun, List.count_append]

theorem chartPhase_count_viz (env : Env) (st : RunState) (d : JValue) :
    ((chartPhase env st d).invoked).count "VizAgent" =
      st.invoked.count "VizAgent" := by
  simp only [chartPhase]
  repeat' split
  all_goals
    simp [fatalSt, fatal, appendOut, formatPhase_count_viz, List.count_append]

theorem vizPhase_count_viz (env : Env) (st : RunState) (iv d : JValue) :
    ((vizPhase env st iv d).invoked).count "VizAgent" =
      st.invoked.count "VizAgent" +
      (if isStrVal iv "requiere_visualizacion" && st.resp.sql_data.isSome
       then 1 else 0) := by
  simp only [vizPhase]
  repeat' split
  all_goals
    simp [fatalSt, fatal, appendOut, chartPhase_count_viz, List.count_append]

theorem formatPhase_mem_graph (env : Env) (st : RunState) (d : JValue) :
    ("GraphExecutor" ∈ (formatPhase env st d).invoked) ↔
      "GraphExecutor" ∈ st.invoked := by
  simp only [formatPhase]
  repeat' split
  all_goals simp [fatalSt, fatal, appendOut, finishRun]

theorem formatPhase_invoked (env : Env) (st : RunState) (d : JValue) :
    (formatPhase env st d).invoked =
      (if st.resp.success && st.resp.sql_data.isSome then
        st.invoked ++ ["FormatAgent"]
       else st.invoked) := by
  simp only [formatPhase]
  repeat' split
  all_goals simp_all [fatalSt, fatal, appendOut, finishRun]

theorem chartPhase_mem_graph (env : Env) (st : RunState) (d : JValue)
    (vr : VizResult) (h : st.resp.viz_data = some vr) :
    ("GraphExecutor" ∈ (chartPhase env st d).invoked) ↔
      ("GraphExecutor" ∈ st.invoked ∨
        (optStrTruthy vr.run_id = true ∧ strTruthy vr.tipo_grafico = true)) := by
  simp only [chartPhase, h]
  repeat' split
  all_goals
    simp_all [fatalSt, fatal, appendOut, formatPhase_mem_graph]

theorem formatPhase_success (env : Env) (st : RunState)
    (ifs : List (String × JValue)) (fm : String)
    (hF : env.formatCall = Except.ok fm) :
    (formatPhase env st (JValue.jobj ifs)).resp.success = true := by
  simp only [formatPhase, pyGet, hF]
  repeat' split
  all_goals simp [finishRun]

/-- Claim C1: when the SQL stage's extracted JSON is a record without the
`resultados` key, the run returns immediately after SQL validation with
`success=false`, no SQL/viz/formatted data, the raw SQL text (or a generic
error) as the message, and no downstream stage invoked. -/
theorem claim_C1_sql_failure_short_circuit (env : Env) (events : List Msg)
    (m : Msg) (ms : List Msg) (iv : JValue) (fs : List (String × JValue))
    (h1 : env.stage1 = Except.ok events)
    (h2 : collectMsgs events = m :: ms)
    (h3 : pyGet (extract_json (reconcile (m :: ms)).1) "intent"
      (JValue.jstr "nivel_puntual") = Except.ok iv)
    (h4 : extract_json (reconcile (m :: ms)).2 = JValue.jobj fs)
    (h5 : List.lookup "resultados" fs = none) :
    (runWorkflow env).resp.success = false ∧
    (runWorkflow env).resp.sql_data = none ∧
    (runWorkflow env).resp.viz_data = none ∧
    (runWorkflow env).resp.formatted_response = none ∧
    (runWorkflow env).resp.message =
      (if strTruthy (reconcile (m :: ms)).2 then (reconcile (m :: ms)).2
       else "Error executing SQL query") ∧
    (runWorkflow env).invoked = ["IntentAgent", "SQLAgent"] := by
  simp only [runWorkflow, h1, h2, afterMessages, h3, sqlCheck, h4,
    truthyContains_obj_none fs "resultados" h5]
  simp [stage1Invoked, appendOut, initResponse]

/-- Claim C1 witness: a prose SQL answer short-circuits the run. -/
theorem claim_C1_witness :
    (runWorkflow envC1).resp.success = false ∧
    (runWorkflow envC1).resp.sql_data = none ∧
    (runWorkflow envC1).resp.viz_data = none ∧
    (runWorkflow envC1).resp.formatted_response = none ∧
    (runWorkflow envC1).resp.message = "DB error" ∧
    (runWorkflow envC1).invoked = ["IntentAgent", "SQLAgent"] := by
  have h := claim_C1_sql_failure_short_circuit envC1
    [intentMsg "nivel_puntual",
     { author_name := some "SQLAgent", text := "DB error" }]
    (intentMsg "nivel_puntual")
    [{ author_name := some "SQLAgent", text := "DB error" }]
    (JValue.jstr "nivel_puntual") []
    rfl rfl (by rfl) (by rfl) rfl
  refine ⟨h.1, h.2.1, h.2.2.1, h.2.2.2.1, ?_, h.2.2.2.2.2⟩
  rw [h.2.2.2.2.1]
  rfl

/-- Claim C2: on every exit path of `run_workflow`, `success = true`
implies the returned `sql_data` is populated. -/
theorem claim_C2_success_implies_sql_data (env : Env)
    (h : (runWorkflow env).resp.success = true) :
    ((runWorkflow env).resp.sql_data).isSome = true := by
  revert h
  cases h1 : env.stage1 with
  | error e => simp [runWorkflow, h1, fatal, initResponse]
  | ok events =>
    cases h2 : collectMsgs events with
    | nil => simp [runWorkflow, h1, h2, initResponse]
    | cons m ms =>
      simp only [runWorkflow, h1, h2, afterMessages]
      cases h3 : pyGet (extract_json (reconcile (m :: ms)).1) "intent"
          (JValue.jstr "nivel_puntual") with
      | error e => simp [fatalSt, fatal, appendOut]
      | ok iv =>
        simp only [sqlCheck]
        cases h4 : pyTruthyContains (extract_json (reconcile (m :: ms)).2)
            "resultados" with
        | error e => simp [fatalSt, fatal, appendOut]
        | ok b =>
          cases b with
          | false => simp
          | true =>
            cases h5 : sqlConstruct (extract_json (reconcile (m :: ms)).2) with
            | error e => simp
            | ok sqlr => simp [vizPhase_sql_data, appendOut]

/-- Claim C2 witness: a fully successful run has populated SQL data. -/
theorem claim_C2_witness :
    (runWorkflow envC2).resp.success = true ∧
    ((runWorkflow envC2).resp.sql_data).isSome = true :=
  ⟨by rfl, claim_C2_success_implies_sql_data envC2 (by rfl)⟩

/-- Claim C3 (counterexample): a visualization output with a `powerbi_url`
key but no other `VizResult` field is NOT recovered locally — the
validation failure of `VizResult(**viz_json)` escapes to the top-level
handler, the run ends with `success=false` and the error recorded, contrary
to the claimed warn-and-continue recovery. -/
theorem claim_C3_counterexample :
    (runWorkflow envC3).resp.success = false ∧
    (runWorkflow envC3).resp.viz_data = none ∧
    (runWorkflow envC3).resp.message =
      "System error: tipo_grafico: field required" ∧
    (runWorkflow envC3).resp.errors = ["tipo_grafico: field required"] := by
  exact ⟨rfl, rfl, rfl, rfl⟩

/-- Claim C3 (amended): only a visualization output *without* a
`powerbi_url` key (or a falsy parse) is recovered locally — the stage is
skipped, `viz_data` stays empty and the run still ends with
`success=true`; a present key whose record fails `VizResult` validation
instead aborts the run through the top-level handler. -/
theorem claim_C3_amended_behavior (env : Env) (events : List Msg)
    (m : Msg) (ms : List Msg) (ifs : List (String × JValue))
    (sqlr : SQLResult) (rawViz fm : String)
    (h1 : env.stage1 = Except.ok events)
    (h2 : collectMsgs events = m :: ms)
    (hI : extract_json (reconcile (m :: ms)).1 = JValue.jobj ifs)
    (hIv : (List.lookup "intent" ifs).getD (JValue.jstr "nivel_puntual") =
      JValue.jstr "requiere_visualizacion")
    (hS1 : pyTruthyContains (extract_json (reconcile (m :: ms)).2)
      "resultados" = Except.ok true)
    (hS2 : sqlConstruct (extract_json (reconcile (m :: ms)).2) =
      Except.ok sqlr)
    (hV : env.vizCall = Except.ok rawViz)
    (hNoUrl : pyTruthyContains (extract_json rawViz) "powerbi_url" =
      Except.ok false)
    (hF : env.formatCall = Except.ok fm) :
    (runWorkflow env).resp.success = true ∧
    (runWorkflow env).resp.viz_data = none := by
  simp only [runWorkflow, h1, h2, afterMessages, hI, pyGet, hIv, sqlCheck,
    hS1, hS2, vizPhase, isStrVal, hV, hNoUrl, chartPhase,
    beq_self_eq_true, Option.isSome_some, Bool.true_and, eq_self_iff_true,
    if_true]
  constructor
  · exact formatPhase_success env _ ifs fm hF
  · simp [formatPhase_viz_data, appendOut, initResponse]

/-- Claim C3 witness: a visualization output without the key is skipped
and the run still succeeds. -/
theorem claim_C3_witness :
    (runWorkflow envC3w).resp.success = true ∧
    (runWorkflow envC3w).resp.viz_data = none := by
  exact claim_C3_amended_behavior envC3w
    [intentMsg "requiere_visualizacion", goodSqlMsg]
    (intentMsg "requiere_visualizacion") [goodSqlMsg]
    [("intent", JValue.jstr "requiere_visualizacion")]
    { pregunta_original := "q", sql := "SELECT 1", tablas := [],
      resultados := [], total_filas := 0, resumen := "ok" }
    "no chart available" ""
    rfl rfl (by rfl) (by rfl) (by rfl) (by rfl) rfl (by rfl) rfl

/-- Claim C4: given a normally reconciled Stage 1 and a successful SQL
stage, the visualization stage is invoked exactly once when the detected
intent is `requiere_visualizacion`; for any other intent it is never
invoked and the run proceeds straight to formatting — the stages actually
started are exactly Stage 1 followed by the format stage. -/
theorem claim_C4_viz_gate_iff_intent (env : Env) (events : List Msg)
    (m : Msg) (ms : List Msg) (iv : JValue) (sqlr : SQLResult)
    (h1 : env.stage1 = Except.ok events)
    (h2 : collectMsgs events = m :: ms)
    (h3 : pyGet (extract_json (reconcile (m :: ms)).1) "intent"
      (JValue.jstr "nivel_puntual") = Except.ok iv)
    (hS1 : pyTruthyContains (extract_json (reconcile (m :: ms)).2)
      "resultados" = Except.ok true)
    (hS2 : sqlConstruct (extract_json (reconcile (m :: ms)).2) =
      Except.ok sqlr) :
    (iv = JValue.jstr "requiere_visualizacion" →
      ((runWorkflow env).invoked).count "VizAgent" = 1) ∧
    (iv ≠ JValue.jstr "requiere_visualizacion" →
      "VizAgent" ∉ (runWorkflow env).invoked ∧
      (runWorkflow env).invoked = ["IntentAgent", "SQLAgent", "FormatAgent"]) := by
  have h0 : List.count "VizAgent" stage1Invoked = 0 := by decide
  have hcount : ((runWorkflow env).invoked).count "VizAgent" =
      (if isStrVal iv "requiere_visualizacion" then 1 else 0) := by
    simp only [runWorkflow, h1, h2, afterMessages, h3, sqlCheck, hS1, hS2]
    rw [vizPhase_count_viz]
    simp [h0]
  constructor
  · intro h
    rw [hcount, h]
    simp [isStrVal]
  · intro h
    have hf : isStrVal iv "requiere_visualizacion" = false :=
      Bool.eq_false_iff.mpr (fun hh => h ((isStrVal_true_iff iv _).mp hh))
    have hz : ((runWorkflow env).invoked).count "VizAgent" = 0 := by
      rw [hcount, hf]
      rfl
    refine ⟨List.count_eq_zero.mp hz, ?_⟩
    simp only [runWorkflow, h1, h2, afterMessages, h3, sqlCheck, hS1, hS2,
      vizPhase, hf, Bool.false_and, Bool.false_eq_true, if_false,
      chartPhase, appendOut, initResponse]
    rw [formatPhase_invoked]
    simp [stage1Invoked]

/-- Claim C4 witness: with intent `requiere_visualizacion` the
visualization stage is invoked exactly once; with intent `nivel_puntual`
it is never invoked and the run goes straight to formatting. -/
theorem claim_C4_witness :
    ((runWorkflow envC4).invoked).count "VizAgent" = 1 ∧
    "VizAgent" ∉ (runWorkflow envC4b).invoked ∧
    (runWorkflow envC4b).invoked = ["IntentAgent", "SQLAgent", "FormatAgent"] :=
  ⟨(claim_C4_viz_gate_iff_intent envC4
      [intentMsg "requiere_visualizacion", goodSqlMsg]
      (intentMsg "requiere_visualizacion") [goodSqlMsg]
      (JValue.jstr "requiere_visualizacion")
      { pregunta_original := "q", sql := "SELECT 1", tablas := [],
        resultados := [], total_filas := 0, resumen := "ok" }
      rfl rfl (by rfl) (by rfl) (by rfl)).1 rfl,
   (claim_C4_viz_gate_iff_intent envC4b
      [intentMsg "nivel_puntual", goodSqlMsg]
      (intentMsg "nivel_puntual") [goodSqlMsg]
      (JValue.jstr "nivel_puntual")
      { pregunta_original := "q", sql := "SELECT 1", tablas := [],
        resultados := [], total_filas := 0, resumen := "ok" }
      rfl rfl (by rfl) (by rfl) (by rfl)).2 (by simp)⟩

/-- Claim C5: on a run whose visualization stage produced a `VizResult`,
the chart-image stage is invoked iff that result carries a truthy `run_id`
and a truthy `tipo_grafico`; in particular a result without `run_id` never
triggers it, even though the intent required visualization. -/
theorem claim_C5_chart_gate (env : Env) (events : List Msg)
    (m : Msg) (ms : List Msg) (sqlr : SQLResult) (rawViz u : String)
    (vr : VizResult)
    (h1 : env.stage1 = Except.ok events)
    (h2 : collectMsgs events = m :: ms)
    (h3 : pyGet (extract_json (reconcile (m :: ms)).1) "intent"
      (JValue.jstr "nivel_puntual") =
      Except.ok (JValue.jstr "requiere_visualizacion"))
    (hS1 : pyTruthyContains (extract_json (reconcile (m :: ms)).2)
      "resultados" = Except.ok true)
    (hS2 : sqlConstruct (extract_json (reconcile (m :: ms)).2) =
      Except.ok sqlr)
    (hV : env.vizCall = Except.ok rawViz)
    (hU1 : pyTruthyContains (extract_json rawViz) "powerbi_url" =
      Except.ok true)
    (hU2 : pyGet (extract_json rawViz) "powerbi_url" (JValue.jstr "") =
      Except.ok (JValue.jstr u))
    (hVC : vizConstruct (extract_json rawViz) = Except.ok vr) :
    ("GraphExecutor" ∈ (runWorkflow env).invoked) ↔
      (optStrTruthy vr.run_id = true ∧ strTruthy vr.tipo_grafico = true) := by
  have hnotin : ("GraphExecutor" : String) ∉ stage1Invoked ++ ["VizAgent"] := by
    decide
  simp only [runWorkflow, h1, h2, afterMessages, h3, sqlCheck, hS1, hS2,
    vizPhase, isStrVal, hV, hU1, hU2, hVC, beq_self_eq_true,
    Option.isSome_some, Bool.true_and, eq_self_iff_true, if_true]
  rw [chartPhase_mem_graph env _ _ vr rfl]
  simp only [appendOut]
  constructor
  · intro hc
    rcases hc with hc | hc
    · exact absurd hc hnotin
    · exact hc
  · intro hc
    exact Or.inr hc

/-- Claim C5 witness: a `VizResult` without `run_id` never triggers the
chart stage. -/
theorem claim_C5_witness :
    "GraphExecutor" ∉ (runWorkflow envC5).invoked := by
  have h := claim_C5_chart_gate envC5
    [intentMsg "requiere_visualizacion", goodSqlMsg]
    (intentMsg "requiere_visualizacion") [goodSqlMsg]
    { pregunta_original := "q", sql := "SELECT 1", tablas := [],
      resultados := [], total_filas := 0, resumen := "ok" }
    ("\x7b\"tipo_grafico\": \"bar\", \"metric_name\": \"m\", " ++
      "\"data_points\": [], \"powerbi_url\": \"https://x\"\x7d")
    "https://x" vizC5
    rfl rfl (by rfl) (by rfl) (by rfl) rfl (by rfl) (by rfl) (by rfl)
  intro hmem
  have hgate := h.mp hmem
  simp [vizC5, optStrTruthy] at hgate

/-- Claim C9: when the chart stage's parsed output has an `image_url` key,
the merge into the existing `VizResult` changes only the image field —
every other field (`tipo_grafico`, `metric_name`, `data_points`,
`powerbi_url`, `run_id`) is the one the visualization stage produced. -/
theorem claim_C9_chart_merge_frame (env : Env) (events : List Msg)
    (m : Msg) (ms : List Msg) (sqlr : SQLResult) (rawViz u rawG : String)
    (vr : VizResult) (iv2 : JValue)
    (h1 : env.stage1 = Except.ok events)
    (h2 : collectMsgs events = m :: ms)
    (h3 : pyGet (extract_json (reconcile (m :: ms)).1) "intent"
      (JValue.jstr "nivel_puntual") =
      Except.ok (JValue.jstr "requiere_visualizacion"))
    (hS1 : pyTruthyContains (extract_json (reconcile (m :: ms)).2)
      "resultados" = Except.ok true)
    (hS2 : sqlConstruct (extract_json (reconcile (m :: ms)).2) =
      Except.ok sqlr)
    (hV : env.vizCall = Except.ok rawViz)
    (hU1 : pyTruthyContains (extract_json rawViz) "powerbi_url" =
      Except.ok true)
    (hU2 : pyGet (extract_json rawViz) "powerbi_url" (JValue.jstr "") =
      Except.ok (JValue.jstr u))
    (hVC : vizConstruct (extract_json rawViz) = Except.ok vr)
    (hR : optStrTruthy vr.run_id = true)
    (hT : strTruthy vr.tipo_grafico = true)
    (hGc : env.graphCall = Except.ok rawG)
    (hG1 : pyTruthyContains (extract_json rawG) "image_url" =
      Except.ok true)
    (hG2 : pyIndex (extract_json rawG) "image_url" = Except.ok iv2) :
    (runWorkflow env).resp.viz_data =
      some { vr with image_url := some iv2 } := by
  simp only [runWorkflow, h1, h2, afterMessages, h3, sqlCheck, hS1, hS2,
    vizPhase, isStrVal, hV, hU1, hU2, hVC, chartPhase, hR, hT, hGc,
    hG1, hG2, beq_self_eq_true, Option.isSome_some, Bool.true_and,
    eq_self_iff_true, if_true]
  split
  · simp [formatPhase_viz_data]
  · simp [fatalSt, fatal, appendOut]

/-- Claim C9 witness: on the full chart path, the final `VizResult` is the
visualization stage's record with only the image field filled in. -/
theorem claim_C9_witness :
    (runWorkflow envC9).resp.viz_data =
      some { vizC9 with image_url := some (JValue.jstr "https://img") } :=
  claim_C9_chart_merge_frame envC9
    [intentMsg "requiere_visualizacion", goodSqlMsg]
    (intentMsg "requiere_visualizacion") [goodSqlMsg]
    { pregunta_original := "q", sql := "SELECT 1", tablas := [],
      resultados := [], total_filas := 0, resumen := "ok" }
    ("\x7b\"tipo_grafico\": \"bar\", \"metric_name\": \"m\", " ++
      "\"data_points\": [], \"powerbi_url\": \"https://x\", " ++
      "\"run_id\": \"r1\"\x7d")
    "https://x" "\x7b\"image_url\": \"https://img\"\x7d"
    vizC9 (JValue.jstr "https://img")
    rfl rfl (by rfl) (by rfl) (by rfl) rfl (by rfl) (by rfl) (by rfl)
    (by rfl) (by rfl) rfl (by rfl) (by rfl)

/-- Claim C6: for every input string, `extract_json` returns (the embedding
is a total function, every `json.loads` failure being caught), and whenever
no parse attempt succeeds — whole text, the two attempts inside an
`<answer>` region, fenced block, brace span — the result is the empty
record. -/
theorem claim_C6_extract_json_total_default (s : String)
    (h1 : loads s = none)
    (h2 : (answerSearch s.data).bind
      (fun c => (fenceSearch c).bind loadsChars) = none)
    (h3 : (answerSearch s.data).bind
      (fun c => (braceSpan c).bind loadsChars) = none)
    (h4 : outerFenceAttempt s.data = none)
    (h5 : outerBraceAttempt s.data = none) :
    extract_json s = JValue.jobj [] := by
  unfold extract_json extractFallback
  cases hA : answerSearch s.data with
  | none => simp [h1, h4, h5]
  | some c =>
    rw [hA] at h2 h3
    simp only [Option.some_bind] at h2 h3
    simp [h1, h2, h3, h4, h5]

/-- Claim C6 witness: a truncated-brace input on which every attempt
fails, so `extract_json` returns the empty record. -/
theorem claim_C6_witness :
    loads "hello \x7bworld" = none ∧
    extract_json "hello \x7bworld" = JValue.jobj [] :=
  ⟨by rfl,
   claim_C6_extract_json_total_default "hello \x7bworld"
     (by rfl) (by rfl) (by rfl) (by rfl) (by rfl)⟩

/-- Claim C7 (counterexample): the claimed four-step extraction order is
not what `extract_json` implements — on an input with an `<answer>` region
the code parses inside that region first, while the claimed order would
fail every attempt and return the empty record. -/
theorem claim_C7_counterexample :
    extract_json c7Input = JValue.jobj [("a", JValue.jnum 1)] ∧
    specOrderedExtract c7Input = JValue.jobj [] ∧
    JValue.jobj [("a", JValue.jnum 1)] ≠ JValue.jobj [] := by
  refine ⟨by rfl, by rfl, ?_⟩
  intro h
  injection h with h2
  exact List.cons_ne_nil _ _ h2

/-- Claim C7 (amended): `extract_json` tries, in order: (a) the whole text
as JSON; (a') a fenced block inside the first `<answer>` region, then a
brace span inside it; (b) the first fenced code block of the whole text;
(c) the greedy brace span of the whole text; (d) the empty record — the
result is the first attempt that succeeds. -/
theorem claim_C7_amended_order (s : String) :
    extract_json s =
      (firstSome [loads s,
        (answerSearch s.data).bind (fun c => (fenceSearch c).bind loadsChars),
        (answerSearch s.data).bind (fun c => (braceSpan c).bind loadsChars),
        outerFenceAttempt s.data,
        outerBraceAttempt s.data]).getD (JValue.jobj []) := by
  unfold extract_json extractFallback
  cases hL : loads s with
  | some j => simp [firstSome]
  | none =>
    cases hA : answerSearch s.data with
    | none =>
      simp only [Option.none_bind]
      cases hF : outerFenceAttempt s.data <;>
        cases hB : outerBraceAttempt s.data <;> simp [firstSome]
    | some c =>
      simp only [Option.some_bind]
      cases hF : (fenceSearch c).bind loadsChars with
      | some j => simp [firstSome]
      | none =>
        cases hB2 : (braceSpan c).bind loadsChars with
        | some j => simp [firstSome]
        | none =>
          cases hF2 : outerFenceAttempt s.data <;>
            cases hB3 : outerBraceAttempt s.data <;> simp [firstSome]

/-- Claim C8: a first-attempt failure whose message carries no rate-limit
indicator makes `run_with_retry` invoke the operation exactly once,
propagate that same error, and sleep never. -/
theorem claim_C8_no_retry_on_other_errors {A : Type}
    (outcomes : Nat → Except String A) (maxRetries : Nat)
    (initialDelay backoffFactor : ℚ) (retryOn : Bool) (e : String)
    (hpos : 1 ≤ maxRetries)
    (hfail : outcomes 0 = Except.error e)
    (hnr : isRateLimitMsg e = false) :
    runWithRetry outcomes maxRetries initialDelay backoffFactor retryOn =
      { result := Except.error e, attemptCount := 1, sleeps := [] } := by
  obtain ⟨f, rfl⟩ : ∃ f, maxRetries = f + 1 := ⟨maxRetries - 1, by omega⟩
  simp [runWithRetry, retryLoop, hfail, hnr]

/-- Claim C8 witness: a connection error is not retried. -/
theorem claim_C8_witness :
    isRateLimitMsg "connection refused" = false ∧
    runWithRetry
      (fun _ => (Except.error "connection refused" : Except String String))
      3 5 2 true =
      { result := Except.error "connection refused", attemptCount := 1,
        sleeps := [] } :=
  ⟨by rfl,
   claim_C8_no_retry_on_other_errors
     (fun _ => (Except.error "connection refused" : Except String String))
     3 5 2 true "connection refused" (by decide) rfl (by rfl)⟩

/-- Claim C10: when no message matches either agent identity and exactly
one non-empty textual message exists, the Stage-1 reconciliation uses that
single text as both the intent and the SQL raw output. -/
theorem claim_C10_single_message_fallback (m : Msg)
    (hA : m.author_name ≠ some "IntentAgent")
    (hB : m.author_name ≠ some "SQLAgent")
    (hT : m.text ≠ "") :
    reconcile [m] = (m.text, m.text) := by
  unfold reconcile idMatch
  cases hauth : m.author_name with
  | none => simp [hauth, hT]
  | some a =>
    have ha : a ≠ "IntentAgent" := fun x => hA (by rw [hauth, x])
    have hb : a ≠ "SQLAgent" := fun x => hB (by rw [hauth, x])
    simp [hauth, ha, hb, hT]

/-- Claim C10 witness: a single anonymous message is used for both
stages. -/
theorem claim_C10_witness :
    ((none : Option String) ≠ some "IntentAgent") ∧
    reconcile [{ author_name := none, text := "hola" }] = ("hola", "hola") :=
  ⟨by simp,
   claim_C10_single_message_fallback
     { author_name := none, text := "hola" }
     (by simp) (by simp) (by simp)⟩
